import Mathlib

/-!
Shallow embedding of the PPTX-to-HeyGen-video pipeline in `src/main.py`
(class `PPTXToHeyGenVideo` together with `CloudinaryStorage.get_file_bytes`).

Modelling conventions:
* Python exceptions are modelled with `Option`/`Except`: a remote call that can
  raise is a function returning `Option`/`Except`, and `none`/`.error` stands
  for the raised exception.
* Outbound HTTP traffic is abstracted behind environment records whose fields
  answer each remote call (render a slide, upload bytes, run the language
  model, create the video, report job status).  Each field is a pure function,
  so the environment is deterministic: the same call always gets the same
  answer.
* Time is not modelled; `time.sleep d` is recorded by appending `d` to a trace
  of sleep durations.
* The unbounded polling loop of `_wait_for_video` is given explicit fuel (a
  bound on the number of iterations); exhausting the fuel is reported as a
  distinguished outcome that does not exist in the source, which loops forever.
* `self.slide_asset_ids`, the mutable accumulator on the pipeline object, is
  threaded through explicitly: functions that read or extend it take its value
  before the call and return its value after the call.
-/

instance {ε α : Type} [DecidableEq ε] [DecidableEq α] : DecidableEq (Except ε α) := fun a b =>
  match a, b with
  | .ok x, .ok y =>
    if h : x = y then isTrue (h ▸ rfl) else isFalse (fun hh => h (Except.ok.inj hh))
  | .error x, .error y =>
    if h : x = y then isTrue (h ▸ rfl) else isFalse (fun hh => h (Except.error.inj hh))
  | .ok _, .error _ => isFalse (fun hh => Except.noConfusion hh)
  | .error _, .ok _ => isFalse (fun hh => Except.noConfusion hh)

/-- Trace of one call to `_request_with_retry` (src/main.py lines 130-142):
the final result (`.ok` body, or `.error` with the message of the raised
exception), the number of attempts performed, and the list of sleep durations
in order. -/
structure RetryTrace where
  result : Except String String
  attempts : Nat
  sleeps : List Nat
deriving DecidableEq, Repr

/-- The loop body of `_request_with_retry`.  `transport attempt` models
`requests.request(...)` followed by `raise_for_status()` on attempt number
`attempt` (0-based): `.ok` is a 2xx response body, `.error` a raised
`requests.RequestException`.  The fuel argument equals the number of loop
iterations still available (`retryTimes - attempt`). -/
def retryAux (transport : Nat → Except String String) (retryTimes : Nat) :
    Nat → Nat → RetryTrace
  | _, 0 => { result := .error "请求重试次数耗尽", attempts := 0, sleeps := [] }
  | attempt, fuel + 1 =>
    match transport attempt with
    | .ok r => { result := .ok r, attempts := 1, sleeps := [] }
    | .error e =>
      if attempt = retryTimes - 1 then
        { result := .error e, attempts := 1, sleeps := [] }
      else
        let t := retryAux transport retryTimes (attempt + 1) fuel
        { result := t.result, attempts := t.attempts + 1, sleeps := 2 ^ attempt :: t.sleeps }

/-- `_request_with_retry` with `self.retry_times = retryTimes`. -/
def requestWithRetry (retryTimes : Nat) (transport : Nat → Except String String) : RetryTrace :=
  retryAux transport retryTimes 0 retryTimes

/-- Transport for the witness: fails on attempts 0 and 1, succeeds on attempt 2. -/
def transportFailTwice : Nat → Except String String :=
  fun n => if n < 2 then .error "boom" else .ok "resp"

/-- Transport for the witness: fails on every attempt. -/
def transportAlwaysFail : Nat → Except String String :=
  fun n => .error ("boom" ++ toString n)

/-- C3: with `retry_times = 3`, if the transport fails on the first `k < 3`
attempts (0-based `0..k-1`) and succeeds on attempt `k`, the wrapper returns
that success after exactly `k+1` attempts, having slept `2^attempt` after each
failed attempt; if all three attempts fail, it performs exactly 3 attempts,
sleeps only after the first two failures, and propagates the last failure. -/
theorem retry_three_spec (transport : Nat → Except String String) :
    (∀ r : String, transport 0 = .ok r →
        requestWithRetry 3 transport = { result := .ok r, attempts := 1, sleeps := [] })
    ∧ (∀ (e0 r : String), transport 0 = .error e0 → transport 1 = .ok r →
        requestWithRetry 3 transport = { result := .ok r, attempts := 2, sleeps := [1] })
    ∧ (∀ (e0 e1 r : String), transport 0 = .error e0 → transport 1 = .error e1 →
        transport 2 = .ok r →
        requestWithRetry 3 transport = { result := .ok r, attempts := 3, sleeps := [1, 2] })
    ∧ (∀ (e0 e1 e2 : String), transport 0 = .error e0 → transport 1 = .error e1 →
        transport 2 = .error e2 →
        requestWithRetry 3 transport = { result := .error e2, attempts := 3, sleeps := [1, 2] }) := by
  refine ⟨fun r h0 => ?_, fun e0 r h0 h1 => ?_, fun e0 e1 r h0 h1 h2 => ?_,
    fun e0 e1 e2 h0 h1 h2 => ?_⟩ <;>
    simp [requestWithRetry, retryAux, h0, *]

/-- Witness for C3 at two concrete transports: fail-twice-then-succeed returns
the success after 3 attempts with sleeps 1 and 2; always-fail raises the last
failure after 3 attempts with sleeps 1 and 2. -/
theorem retry_three_spec_witness :
    requestWithRetry 3 transportFailTwice
        = { result := .ok "resp", attempts := 3, sleeps := [1, 2] }
    ∧ requestWithRetry 3 transportAlwaysFail
        = { result := .error "boom2", attempts := 3, sleeps := [1, 2] } :=
  ⟨(retry_three_spec transportFailTwice).2.2.1 "boom" "boom" "resp" rfl rfl rfl,
   (retry_three_spec transportAlwaysFail).2.2.2 "boom0" "boom1" "boom2" rfl rfl rfl⟩

/-- Environment answering the per-slide remote calls of `_pptx_to_heygen_images`:
`render i` is `download_slide_online` on slide `i` followed by reading the
produced temporary file (`none` = raised exception, otherwise the PNG bytes),
and `uploadId i bytes` is the HeyGen asset-upload request of
`_upload_to_heygen` (`none` = transport failure after retries or a response
without the id field, otherwise the value of `data.id`). -/
structure RasterEnv where
  render : Nat → Option (List Nat)
  uploadId : Nat → List Nat → Option String

/-- One iteration of the slide loop in `_pptx_to_heygen_images`
(src/main.py lines 167-189), without the accumulator: `some assetId` when
slide `idx` was rendered to non-empty bytes and uploaded to a usable asset id,
`none` when any step raised (render error, empty image after conversion —
`raise ValueError` —, upload failure, or falsy asset id, which
`_upload_to_heygen` turns into a `RuntimeError`). -/
def processSlide (env : RasterEnv) (idx : Nat) : Option String :=
  match env.render idx with
  | none => none
  | some slideBytes =>
    if slideBytes = [] then none
    else
      match env.uploadId idx slideBytes with
      | none => none
      | some assetId => if assetId = "" then none else some assetId

/-- `_pptx_to_heygen_images(pptx_bytes, slide_count)`: iterates slide indices
1..slideCount, appending the asset id of each succeeding slide to
`self.slide_asset_ids` (passed in as `slideAssetIds` and returned updated);
a failing slide is logged and skipped. -/
def pptxToHeygenImages (env : RasterEnv) (slideCount : Nat)
    (slideAssetIds : List String) : List String :=
  (List.range' 1 slideCount).foldl
    (fun ids idx =>
      match processSlide env idx with
      | some assetId => ids ++ [assetId]
      | none => ids)
    slideAssetIds

lemma foldl_append_filterMap (f : Nat → Option String) :
    ∀ (l : List Nat) (acc : List String),
      l.foldl (fun ids i => match f i with | some a => ids ++ [a] | none => ids) acc
        = acc ++ l.filterMap f
  | [], acc => by simp
  | i :: l, acc => by
    cases h : f i with
    | none => simp [List.foldl_cons, h, foldl_append_filterMap f l acc]
    | some a =>
      simp only [List.foldl_cons, h, List.filterMap_cons, foldl_append_filterMap f l (acc ++ [a])]
      simp

lemma pptxToHeygenImages_eq (env : RasterEnv) (n : Nat) (acc : List String) :
    pptxToHeygenImages env n acc = acc ++ (List.range' 1 n).filterMap (processSlide env) :=
  foldl_append_filterMap (processSlide env) (List.range' 1 n) acc

/-- ASCII whitespace as recognised by Python's `str.strip()` (space, tab,
newline, carriage return, vertical tab, form feed; the model restricts
Python's Unicode whitespace set to ASCII). -/
def pyIsSpace (c : Char) : Bool :=
  c = ' ' || c = '\t' || c = '\n' || c = '\r' || c = '\x0b' || c = '\x0c'

/-- Python's `text.strip()`: drop whitespace from both ends. -/
def pyStrip (s : String) : String :=
  ⟨((s.data.dropWhile pyIsSpace).reverse.dropWhile pyIsSpace).reverse⟩

/-- Python's `text[:n]`: the first `n` characters. -/
def pyTake (s : String) (n : Nat) : String :=
  ⟨s.data.take n⟩

/-- The fixed placeholder narration for a blank slide text at 1-based position
`idx` (src/main.py line 197). -/
def placeholderNote (idx : Nat) : String :=
  "这是第" ++ toString idx ++ "张幻灯片，主要展示图片内容。"

/-- The degraded fallback narration used when the language-model call for
1-based position `idx` raises (src/main.py line 213): a fixed prefix followed
by the first 50 characters of the slide text and an ellipsis. -/
def fallbackNote (idx : Nat) (text : String) : String :=
  "第" ++ toString idx ++ "张幻灯片内容：" ++ pyTake text 50 ++ "..."

/-- One iteration of the loop in `_generate_speaker_notes`
(src/main.py lines 195-213) for 1-based position `idx` and slide text `text`.
`llm text` models `chat.completions.create` returning the first completion's
content (`none` = raised exception).  Returns the produced narration together
with the list of slide texts sent to the remote model by this iteration
(empty for the blank-text branch, a singleton otherwise — the call is issued
before its success or failure is known). -/
def generateNoteCalls (llm : String → Option String) (idx : Nat) (text : String) :
    String × List String :=
  if pyStrip text = "" then (placeholderNote idx, [])
  else
    match llm text with
    | some content => (pyStrip content, [text])
    | none => (fallbackNote idx text, [text])

/-- The loop of `_generate_speaker_notes` from 1-based position `idx` on. -/
def notesAux (llm : String → Option String) : Nat → List String → List String × List String
  | _, [] => ([], [])
  | idx, t :: ts =>
    let p := generateNoteCalls llm idx t
    let rest := notesAux llm (idx + 1) ts
    (p.1 :: rest.1, p.2 ++ rest.2)

/-- `_generate_speaker_notes(slide_texts)`: the produced narration list paired
with the trace of slide texts that were sent to the language model. -/
def generateSpeakerNotes (llm : String → Option String) (slideTexts : List String) :
    List String × List String :=
  notesAux llm 1 slideTexts

lemma notesAux_length (llm : String → Option String) :
    ∀ (ts : List String) (start : Nat), (notesAux llm start ts).1.length = ts.length
  | [], _ => rfl
  | _ :: ts, start => by
    simp [notesAux, notesAux_length llm ts (start + 1)]

lemma notesAux_getElem? (llm : String → Option String) :
    ∀ (ts : List String) (start i : Nat) (t : String), ts[i]? = some t →
      (notesAux llm start ts).1[i]? = some (generateNoteCalls llm (start + i) t).1
  | [], _, i, t => by simp
  | u :: ts, start, 0, t => by
    intro h
    simp at h
    simp [notesAux, h]
  | u :: ts, start, i + 1, t => by
    intro h
    simp at h
    have hrec := notesAux_getElem? llm ts (start + 1) i t h
    have harith : start + 1 + i = start + (i + 1) := by omega
    rw [harith] at hrec
    simp only [notesAux, List.getElem?_cons_succ]
    exact hrec

lemma notesAux_calls (llm : String → Option String) :
    ∀ (ts : List String) (start : Nat),
      (notesAux llm start ts).2 = ts.filter (fun t => ¬ pyStrip t = "")
  | [], _ => rfl
  | u :: ts, start => by
    by_cases h : pyStrip u = ""
    · simp [notesAux, generateNoteCalls, h, notesAux_calls llm ts (start + 1)]
    · simp only [notesAux, generateNoteCalls, if_neg h, List.filter_cons,
        notesAux_calls llm ts (start + 1)]
      cases llm u <;> simp [h]

/-- Concrete language model for witnesses: raises on the text `"fail"`,
otherwise answers with a completion carrying surrounding whitespace. -/
def llmEx : String → Option String :=
  fun t => if t = "fail" then none else some (" N" ++ t ++ " ")

/-- Concrete slide-text list for witnesses: a normal text, a text whose
language-model call raises, and a whitespace-only text. -/
def notesTextsEx : List String := ["hello", "fail", "  "]

/-- C6: narration generation returns exactly one output per input in the same
order (same length, output `i` is the loop body applied to input `i` at
1-based position `i+1`), and a remote-generation failure for a non-blank item
is absorbed into a degraded fallback made of a fixed prefix and a
≤50-character prefix of that slide's text — the batch is never aborted and the
output length never changes. -/
theorem notes_length_order (llm : String → Option String) (texts : List String) :
    (generateSpeakerNotes llm texts).1.length = texts.length
    ∧ (∀ (i : Nat) (t : String), texts[i]? = some t →
        (generateSpeakerNotes llm texts).1[i]? = some (generateNoteCalls llm (i + 1) t).1)
    ∧ (∀ (idx : Nat) (t : String), ¬ pyStrip t = "" → llm t = none →
        (generateNoteCalls llm idx t).1
            = "第" ++ toString idx ++ "张幻灯片内容：" ++ pyTake t 50 ++ "..."
          ∧ (pyTake t 50).length ≤ 50) := by
  refine ⟨notesAux_length llm texts 1, fun i t h => ?_, fun idx t hb hllm => ?_⟩
  · have hrec := notesAux_getElem? llm texts 1 i t h
    rwa [Nat.add_comm 1 i] at hrec
  · constructor
    · simp [generateNoteCalls, if_neg hb, hllm, fallbackNote]
    · show (t.data.take 50).length ≤ 50
      simp

/-- Witness for C6 at a concrete language model and text list: three inputs
give three outputs, output 1 is the loop body on input 1, and the failing
non-blank item gets the fallback with a ≤50-character text prefix. -/
theorem notes_length_order_witness :
    (generateSpeakerNotes llmEx notesTextsEx).1.length = notesTextsEx.length
    ∧ (generateSpeakerNotes llmEx notesTextsEx).1[1]? = some (generateNoteCalls llmEx 2 "fail").1
    ∧ ((generateNoteCalls llmEx 2 "fail").1
          = "第" ++ toString 2 ++ "张幻灯片内容：" ++ pyTake "fail" 50 ++ "..."
        ∧ (pyTake "fail" 50).length ≤ 50) :=
  ⟨(notes_length_order llmEx notesTextsEx).1,
   (notes_length_order llmEx notesTextsEx).2.1 1 "fail" rfl,
   (notes_length_order llmEx notesTextsEx).2.2 2 "fail" (by decide) rfl⟩

/-- C7: a blank or whitespace-only slide text at 1-based position `idx`
produces the fixed placeholder narration referencing `idx` and issues no
remote language-model call (its remote-call trace is empty; the batch trace
is exactly the non-blank texts). -/
theorem blank_placeholder (llm : String → Option String) (texts : List String) :
    (∀ (idx : Nat) (t : String), pyStrip t = "" →
        generateNoteCalls llm idx t = (placeholderNote idx, []))
    ∧ (∀ (i : Nat) (t : String), texts[i]? = some t → pyStrip t = "" →
        (generateSpeakerNotes llm texts).1[i]? = some (placeholderNote (i + 1)))
    ∧ (generateSpeakerNotes llm texts).2 = texts.filter (fun t => ¬ pyStrip t = "") := by
  refine ⟨fun idx t h => by simp [generateNoteCalls, h], fun i t h hb => ?_,
    notesAux_calls llm texts 1⟩
  have hrec := notesAux_getElem? llm texts 1 i t h
  rw [Nat.add_comm 1 i] at hrec
  simp only [generateSpeakerNotes]
  rw [hrec]
  simp [generateNoteCalls, hb]

/-- Witness for C7: the whitespace-only third text of the concrete list yields
the position-3 placeholder with no remote call, and the batch's remote-call
trace is exactly its non-blank texts. -/
theorem blank_placeholder_witness :
    generateNoteCalls llmEx 3 "  " = (placeholderNote 3, [])
    ∧ (generateSpeakerNotes llmEx notesTextsEx).1[2]? = some (placeholderNote 3)
    ∧ (generateSpeakerNotes llmEx notesTextsEx).2
        = notesTextsEx.filter (fun t => ¬ pyStrip t = "") :=
  ⟨(blank_placeholder llmEx notesTextsEx).1 3 "  " (by decide),
   (blank_placeholder llmEx notesTextsEx).2.1 2 "  " rfl (by decide),
   (blank_placeholder llmEx notesTextsEx).2.2⟩

/-- Concrete rasterization environment for the worked example: five slides,
slide 3 fails to render, every other slide uploads to asset id `"a"++index`. -/
def rasterEnvEx : RasterEnv where
  render := fun i => if i = 3 then none else some [i]
  uploadId := fun i _ => some ("a" ++ toString i)

/-- C1: a per-slide failure (render error, empty image, or upload failure) at
slide `i` is skipped and iteration continues with slide `i+1`; the method does
not raise for a per-slide failure (in the embedding it is a total function),
and starting from an empty accumulator the resulting asset-id sequence is
exactly the sequence of succeeding slides' asset ids in ascending slide-index
order — concretely, slides 1..5 with slide 3 failing yield the four assets of
slides 1, 2, 4, 5 in that order. -/
theorem raster_failure_isolation :
    (∀ (env : RasterEnv) (n : Nat),
        pptxToHeygenImages env n [] = (List.range' 1 n).filterMap (processSlide env))
    ∧ pptxToHeygenImages rasterEnvEx 5 [] = ["a1", "a2", "a4", "a5"] := by
  constructor
  · intro env n
    simpa using pptxToHeygenImages_eq env n []
  · rfl

/-- The HeyGen configuration read from the environment at construction time
(src/main.py lines 109-110): the avatar id and the voice id. -/
structure HeygenCfg where
  avatarId : String
  voiceId : String
deriving DecidableEq, Repr

/-- The background of one scene in the video-generation payload. -/
inductive Background
  | color (value : String)
  | image (imageAssetId : String)
deriving DecidableEq, Repr

/-- The `character` block of one scene (src/main.py lines 222-227). -/
structure Character where
  type : String
  talkingPhotoId : String
  scale : Rat
  offsetX : Rat
  offsetY : Rat
deriving DecidableEq, Repr

/-- The `voice` block of one scene (src/main.py line 228). -/
structure Voice where
  type : String
  inputText : String
  voiceId : String
deriving DecidableEq, Repr

/-- One scene of the `video_inputs` payload. -/
structure Scene where
  character : Character
  voice : Voice
  background : Background
deriving DecidableEq, Repr

/-- One iteration of the scene loop in `_create_heygen_video`
(src/main.py lines 220-234): the fixed avatar identity/scale/offset, the
narration as text voice with the configured voice id, and a white color
background replaced by the image background bound to `slide_asset_ids[idx]`
when `idx < len(slide_asset_ids)`. -/
def mkScene (cfg : HeygenCfg) (slideAssetIds : List String) (idx : Nat) (note : String) : Scene :=
  { character := { type := "talking_photo", talkingPhotoId := cfg.avatarId,
                   scale := 33 / 100, offsetX := 42 / 100, offsetY := 42 / 100 },
    voice := { type := "text", inputText := note, voiceId := cfg.voiceId },
    background :=
      match slideAssetIds[idx]? with
      | some assetId => Background.image assetId
      | none => Background.color "#FFFFFF" }

/-- The scene list built by `_create_heygen_video` from the narrations (one
scene per narration, in order) and the accumulated slide asset ids. -/
def buildScenes (cfg : HeygenCfg) (speakerNotes : List String)
    (slideAssetIds : List String) : List Scene :=
  speakerNotes.enum.map (fun p => mkScene cfg slideAssetIds p.1 p.2)

/-- Concrete configuration for witnesses. -/
def cfgEx : HeygenCfg := { avatarId := "avatar-1", voiceId := "voice-1" }

/-- C5: for `n` narrations and `m` slide assets the job builder produces
exactly `n` scenes, and scene `i` (0-based) carries the fixed avatar
identity/scale/offset, a text voice with narration `i` and the configured
voice id, and an image background bound to asset `i` when `i < m`, else the
solid white color background. -/
theorem scenes_spec (cfg : HeygenCfg) (speakerNotes slideAssetIds : List String) :
    (buildScenes cfg speakerNotes slideAssetIds).length = speakerNotes.length
    ∧ (∀ (i : Nat) (note : String), speakerNotes[i]? = some note →
        (buildScenes cfg speakerNotes slideAssetIds)[i]? = some
          { character := { type := "talking_photo", talkingPhotoId := cfg.avatarId,
                           scale := 33 / 100, offsetX := 42 / 100, offsetY := 42 / 100 },
            voice := { type := "text", inputText := note, voiceId := cfg.voiceId },
            background :=
              match slideAssetIds[i]? with
              | some assetId => Background.image assetId
              | none => Background.color "#FFFFFF" }) := by
  refine ⟨by simp [buildScenes], fun i note h => ?_⟩
  simp [buildScenes, List.getElem?_map, List.getElem?_enum, h, mkScene]

/-- Witness for C5: 3 narrations and 2 assets give 3 scenes; scenes 0 and 1
use image backgrounds bound to the respective asset handles and scene 2 the
default white color background. -/
theorem scenes_spec_witness :
    (buildScenes cfgEx ["n1", "n2", "n3"] ["x", "y"]).length = (["n1", "n2", "n3"] : List String).length
    ∧ (buildScenes cfgEx ["n1", "n2", "n3"] ["x", "y"])[0]? = some
        { character := { type := "talking_photo", talkingPhotoId := cfgEx.avatarId,
                         scale := 33 / 100, offsetX := 42 / 100, offsetY := 42 / 100 },
          voice := { type := "text", inputText := "n1", voiceId := cfgEx.voiceId },
          background := Background.image "x" }
    ∧ (buildScenes cfgEx ["n1", "n2", "n3"] ["x", "y"])[1]? = some
        { character := { type := "talking_photo", talkingPhotoId := cfgEx.avatarId,
                         scale := 33 / 100, offsetX := 42 / 100, offsetY := 42 / 100 },
          voice := { type := "text", inputText := "n2", voiceId := cfgEx.voiceId },
          background := Background.image "y" }
    ∧ (buildScenes cfgEx ["n1", "n2", "n3"] ["x", "y"])[2]? = some
        { character := { type := "talking_photo", talkingPhotoId := cfgEx.avatarId,
                         scale := 33 / 100, offsetX := 42 / 100, offsetY := 42 / 100 },
          voice := { type := "text", inputText := "n3", voiceId := cfgEx.voiceId },
          background := Background.color "#FFFFFF" } :=
  ⟨(scenes_spec cfgEx ["n1", "n2", "n3"] ["x", "y"]).1,
   (scenes_spec cfgEx ["n1", "n2", "n3"] ["x", "y"]).2 0 "n1" rfl,
   (scenes_spec cfgEx ["n1", "n2", "n3"] ["x", "y"]).2 1 "n2" rfl,
   (scenes_spec cfgEx ["n1", "n2", "n3"] ["x", "y"]).2 2 "n3" rfl⟩

/-- One status response of the HeyGen video-status endpoint as read by
`_wait_for_video` (src/main.py lines 264-265): the `status` field, the
`video_url` field, and the optional `error` field. -/
structure StatusData where
  status : String
  videoUrl : String
  errorMsg : Option String
deriving DecidableEq, Repr

/-- The terminal-success test of `_wait_for_video` (line 267). -/
def doneStatus (d : StatusData) : Bool :=
  d.status = "completed" || d.status = "success"

/-- The terminal-failure test of `_wait_for_video` (line 269). -/
def failedStatus (d : StatusData) : Bool :=
  d.status = "failed" || d.status = "error"

/-- Outcome of the polling loop: the returned URL, the raised
`RuntimeError` message, or exhaustion of the explicit fuel (the source has no
such case — its loop has no deadline and simply keeps running). -/
inductive PollOutcome
  | done (url : String)
  | failed (msg : String)
  | pending
deriving DecidableEq, Repr

/-- Trace of a run of the polling loop: its outcome, the number of status
queries performed, and the sleep durations in order. -/
structure PollTrace where
  outcome : PollOutcome
  queries : Nat
  sleeps : List Nat
deriving DecidableEq, Repr

/-- The loop of `_wait_for_video` (src/main.py lines 257-273), starting at
query number `i`, with `fuel` iterations available.  `statuses i` is the
status response of the `i`-th query (0-based). -/
def waitAux (statuses : Nat → StatusData) (pollInterval : Nat) : Nat → Nat → PollTrace
  | _, 0 => { outcome := .pending, queries := 0, sleeps := [] }
  | i, fuel + 1 =>
    let d := statuses i
    if doneStatus d then
      { outcome := .done d.videoUrl, queries := 1, sleeps := [] }
    else if failedStatus d then
      { outcome := .failed ("视频生成失败：" ++ d.errorMsg.getD "未知错误"),
        queries := 1, sleeps := [] }
    else
      let t := waitAux statuses pollInterval (i + 1) fuel
      { outcome := t.outcome, queries := t.queries + 1, sleeps := pollInterval :: t.sleeps }

/-- `_wait_for_video` with poll interval `pollInterval`, bounded by `fuel`
loop iterations. -/
def waitForVideo (statuses : Nat → StatusData) (pollInterval : Nat) (fuel : Nat) : PollTrace :=
  waitAux statuses pollInterval 0 fuel

lemma waitAux_done (statuses : Nat → StatusData) (pollInterval : Nat) :
    ∀ (i fuel start : Nat), i < fuel →
      doneStatus (statuses (start + i)) = true →
      (∀ j, j < i → doneStatus (statuses (start + j)) = false
          ∧ failedStatus (statuses (start + j)) = false) →
      waitAux statuses pollInterval start fuel
        = { outcome := .done (statuses (start + i)).videoUrl, queries := i + 1,
            sleeps := List.replicate i pollInterval }
  | 0, fuel, start, hlt, hdone, _ => by
    obtain ⟨f, rfl⟩ : ∃ f, fuel = f + 1 := ⟨fuel - 1, by omega⟩
    simp only [Nat.add_zero] at hdone
    simp [waitAux, hdone]
  | i + 1, fuel, start, hlt, hdone, hpre => by
    obtain ⟨f, rfl⟩ : ∃ f, fuel = f + 1 := ⟨fuel - 1, by omega⟩
    have h0 := hpre 0 (Nat.succ_pos i)
    rw [Nat.add_zero] at h0
    have hrec := waitAux_done statuses pollInterval i f (start + 1) (by omega)
      (by rw [show start + 1 + i = start + (i + 1) from by omega]; exact hdone)
      (fun j hj => by
        rw [show start + 1 + j = start + (j + 1) from by omega]
        exact hpre (j + 1) (by omega))
    simp only [waitAux, h0.1, h0.2, Bool.false_eq_true, if_false, hrec]
    rw [Nat.add_assoc, Nat.add_comm 1 i]
    simp [List.replicate_succ]
  termination_by i => i

lemma doneStatus_of_failedStatus (d : StatusData) (h : failedStatus d = true) :
    doneStatus d = false := by
  simp only [failedStatus, Bool.or_eq_true, decide_eq_true_eq] at h
  rcases h with h | h <;> simp [doneStatus, h]

lemma waitAux_failed (statuses : Nat → StatusData) (pollInterval : Nat) :
    ∀ (i fuel start : Nat), i < fuel →
      failedStatus (statuses (start + i)) = true →
      (∀ j, j < i → doneStatus (statuses (start + j)) = false
          ∧ failedStatus (statuses (start + j)) = false) →
      waitAux statuses pollInterval start fuel
        = { outcome := .failed ("视频生成失败："
              ++ (statuses (start + i)).errorMsg.getD "未知错误"),
            queries := i + 1, sleeps := List.replicate i pollInterval }
  | 0, fuel, start, hlt, hfail, hpre => by
    obtain ⟨f, rfl⟩ : ∃ f, fuel = f + 1 := ⟨fuel - 1, by omega⟩
    simp only [Nat.add_zero] at hfail
    simp [waitAux, doneStatus_of_failedStatus _ hfail, hfail]
  | i + 1, fuel, start, hlt, hfail, hpre => by
    obtain ⟨f, rfl⟩ : ∃ f, fuel = f + 1 := ⟨fuel - 1, by omega⟩
    have h0 := hpre 0 (Nat.succ_pos i)
    rw [Nat.add_zero] at h0
    have hrec := waitAux_failed statuses pollInterval i f (start + 1) (by omega)
      (by rw [show start + 1 + i = start + (i + 1) from by omega]; exact hfail)
      (fun j hj => by
        rw [show start + 1 + j = start + (j + 1) from by omega]
        exact hpre (j + 1) (by omega))
    simp only [waitAux, h0.1, h0.2, Bool.false_eq_true, if_false, hrec]
    rw [Nat.add_assoc, Nat.add_comm 1 i]
    simp [List.replicate_succ]
  termination_by i => i

lemma waitAux_pending (statuses : Nat → StatusData) (pollInterval : Nat)
    (hall : ∀ j, doneStatus (statuses j) = false ∧ failedStatus (statuses j) = false) :
    ∀ (fuel start : Nat),
      waitAux statuses pollInterval start fuel
        = { outcome := .pending, queries := fuel, sleeps := List.replicate fuel pollInterval }
  | 0, start => rfl
  | fuel + 1, start => by
    simp [waitAux, (hall start).1, (hall start).2,
      waitAux_pending statuses pollInterval hall fuel (start + 1), List.replicate_succ]

/-- Status sequence for the witness: `processing, processing, completed`. -/
def statusesSeqEx : Nat → StatusData :=
  fun n =>
    if n < 2 then { status := "processing", videoUrl := "", errorMsg := none }
    else { status := "completed", videoUrl := "http://video", errorMsg := none }

/-- Status sequence for the witness: `failed` immediately, with a reason. -/
def statusesFailEx : Nat → StatusData :=
  fun _ => { status := "failed", videoUrl := "", errorMsg := some "render exploded" }

/-- C4: the poll loop returns the reported video URL as soon as the status is
`completed` or `success`, raises a video-generation-failed error carrying the
reported reason as soon as the status is `failed` or `error`, and otherwise
sleeps the configured interval and queries again; with only non-terminal
statuses it runs as long as its fuel allows (the source loop has no built-in
deadline).  The first terminal status at query `i` (0-based) is reached after
exactly `i+1` queries and `i` sleeps of the poll interval. -/
theorem poll_state_machine (statuses : Nat → StatusData) (pollInterval : Nat) :
    (∀ i fuel, i < fuel → doneStatus (statuses i) = true →
      (∀ j, j < i → doneStatus (statuses j) = false ∧ failedStatus (statuses j) = false) →
      waitForVideo statuses pollInterval fuel
        = { outcome := .done (statuses i).videoUrl, queries := i + 1,
            sleeps := List.replicate i pollInterval })
    ∧ (∀ i fuel, i < fuel → failedStatus (statuses i) = true →
      (∀ j, j < i → doneStatus (statuses j) = false ∧ failedStatus (statuses j) = false) →
      waitForVideo statuses pollInterval fuel
        = { outcome := .failed ("视频生成失败：" ++ (statuses i).errorMsg.getD "未知错误"),
            queries := i + 1, sleeps := List.replicate i pollInterval })
    ∧ ((∀ j, doneStatus (statuses j) = false ∧ failedStatus (statuses j) = false) →
      ∀ fuel, waitForVideo statuses pollInterval fuel
        = { outcome := .pending, queries := fuel,
            sleeps := List.replicate fuel pollInterval }) := by
  refine ⟨fun i fuel hlt hdone hpre => ?_, fun i fuel hlt hfail hpre => ?_, fun hall fuel => ?_⟩
  · simpa using waitAux_done statuses pollInterval i fuel 0 hlt (by simpa using hdone)
      (fun j hj => by simpa using hpre j hj)
  · simpa using waitAux_failed statuses pollInterval i fuel 0 hlt (by simpa using hfail)
      (fun j hj => by simpa using hpre j hj)
  · exact waitAux_pending statuses pollInterval hall fuel 0

/-- Witness for C4: the sequence `processing, processing, completed` yields
the URL after 3 queries with 2 sleeps of the interval, and an immediate
`failed` status raises the failure with its reason after a single query. -/
theorem poll_state_machine_witness :
    waitForVideo statusesSeqEx 10 5
      = { outcome := .done "http://video", queries := 3, sleeps := [10, 10] }
    ∧ waitForVideo statusesFailEx 10 5
      = { outcome := .failed ("视频生成失败：" ++ "render exploded"), queries := 1, sleeps := [] } :=
  ⟨(poll_state_machine statusesSeqEx 10).1 2 5 (by decide) (by decide) (by decide),
   (poll_state_machine statusesFailEx 10).2.1 0 5 (by decide) (by decide) (by decide)⟩

/-- Environment answering every remote call made during `convert`
(src/main.py lines 275-315): `fetchBytes` is
`CloudinaryStorage.get_file_bytes` (`none` = exception or missing object),
`parseTexts` is `Presentation(...)` plus per-slide text extraction (one text
per slide, in order), `raster` answers the per-slide rendering and uploads,
`llm` the narration model, `createVideoId` the video-create endpoint's
`data.video_id` field for a given scene list and title (`none` = field
absent), and `statuses` the status endpoint per query number. -/
structure ConvertEnv where
  fetchBytes : String → Option (List Nat)
  parseTexts : List Nat → List String
  raster : RasterEnv
  llm : String → Option String
  cfg : HeygenCfg
  createVideoId : List Scene → String → Option String
  statuses : Nat → StatusData

/-- The exceptions `convert` can raise: `FileNotFoundError` for a missing or
empty deck, `ValueError` for a deck without slides, the `RuntimeError`s for
zero converted slides, a missing video id, and a failed video job, and the
fuel-exhaustion artifact of the bounded poll loop. -/
inductive ConvError
  | deckNotFound (publicId : String)
  | emptyDeck
  | noSlidesConverted
  | noVideoId
  | videoFailed (msg : String)
  | pollFuelExhausted
deriving DecidableEq, Repr

/-- The dictionary returned by `convert` (src/main.py lines 310-315). -/
structure ConversionResult where
  videoId : String
  videoUrl : String
  slidesProcessed : Nat
  title : String
deriving DecidableEq, Repr

/-- The truncation `if max_slides: slides = slides[:max_slides]`
(src/main.py lines 288-289): applied only when `max_slides` is truthy, so
`none` and `0` both leave the deck untouched.  The model restricts the
source's `int` to a natural number. -/
def applyMaxSlides (maxSlides : Option Nat) (slides : List String) : List String :=
  match maxSlides with
  | none => slides
  | some m => if m ≠ 0 then slides.take m else slides

/-- `convert(pptx_public_id, video_title, max_slides)` with the accumulator
`self.slide_asset_ids` passed in as `slideAssetIds0`; on success the returned
dictionary is paired with the accumulator's new value.  The poll loop runs on
`pollFuel` iterations of fuel. -/
def convert (env : ConvertEnv) (pollFuel : Nat) (pptxPublicId : String)
    (videoTitle : Option String) (maxSlides : Option Nat) (slideAssetIds0 : List String) :
    Except ConvError (ConversionResult × List String) :=
  match env.fetchBytes pptxPublicId with
  | none => .error (ConvError.deckNotFound pptxPublicId)
  | some pptxBytes =>
    if pptxBytes = [] then .error (ConvError.deckNotFound pptxPublicId)
    else
      let slides0 := env.parseTexts pptxBytes
      if slides0 = [] then .error ConvError.emptyDeck
      else
        let slides := applyMaxSlides maxSlides slides0
        let slideAssetIds := pptxToHeygenImages env.raster slides.length slideAssetIds0
        if slideAssetIds = [] then .error ConvError.noSlidesConverted
        else
          let speakerNotes := (generateSpeakerNotes env.llm (slides.take slideAssetIds.length)).1
          let finalTitle := videoTitle.getD ("PPTX转换视频_" ++ pptxPublicId)
          let scenes := buildScenes env.cfg speakerNotes slideAssetIds
          match env.createVideoId scenes finalTitle with
          | none => .error ConvError.noVideoId
          | some videoId =>
            if videoId = "" then .error ConvError.noVideoId
            else
              match (waitForVideo env.statuses 10 pollFuel).outcome with
              | .done url =>
                .ok ({ videoId := videoId, videoUrl := url,
                       slidesProcessed := speakerNotes.length, title := finalTitle },
                     slideAssetIds)
              | .failed msg => .error (ConvError.videoFailed msg)
              | .pending => .error ConvError.pollFuelExhausted

lemma convert_ok_inv (env : ConvertEnv) (pollFuel : Nat) (pid : String)
    (videoTitle : Option String) (maxSlides : Option Nat) (st : List String)
    (r : ConversionResult) (s : List String)
    (h : convert env pollFuel pid videoTitle maxSlides st = .ok (r, s)) :
    ∃ bs, env.fetchBytes pid = some bs ∧ bs ≠ [] ∧ env.parseTexts bs ≠ [] ∧
      s = pptxToHeygenImages env.raster (applyMaxSlides maxSlides (env.parseTexts bs)).length st ∧
      r.slidesProcessed
        = (generateSpeakerNotes env.llm
            ((applyMaxSlides maxSlides (env.parseTexts bs)).take s.length)).1.length ∧
      r.title = videoTitle.getD ("PPTX转换视频_" ++ pid) := by
  cases hfb : env.fetchBytes pid with
  | none => simp [convert, hfb] at h
  | some bs =>
    refine ⟨bs, rfl, ?_⟩
    by_cases hbs : bs = []
    · simp [convert, hfb, hbs] at h
    · refine ⟨hbs, ?_⟩
      by_cases hsl : env.parseTexts bs = []
      · simp [convert, hfb, hbs, hsl] at h
      · refine ⟨hsl, ?_⟩
        by_cases hids :
            pptxToHeygenImages env.raster
              (applyMaxSlides maxSlides (env.parseTexts bs)).length st = []
        · simp [convert, hfb, hbs, hsl, hids] at h
        · cases hcv : env.createVideoId
              (buildScenes env.cfg
                (generateSpeakerNotes env.llm
                  ((applyMaxSlides maxSlides (env.parseTexts bs)).take
                    (pptxToHeygenImages env.raster
                      (applyMaxSlides maxSlides (env.parseTexts bs)).length st).length)).1
                (pptxToHeygenImages env.raster
                  (applyMaxSlides maxSlides (env.parseTexts bs)).length st))
              (videoTitle.getD ("PPTX转换视频_" ++ pid)) with
          | none => simp [convert, hfb, hbs, hsl, hids, hcv] at h
          | some vid =>
            by_cases hvid : vid = ""
            · simp [convert, hfb, hbs, hsl, hids, hcv, hvid] at h
            · cases hout : (waitForVideo env.statuses 10 pollFuel).outcome with
              | done url =>
                simp only [convert, hfb, hbs, hsl, hids, hcv, hvid, hout, if_neg,
                  ite_false] at h
                have hpair := Except.ok.inj h
                rw [Prod.mk.injEq] at hpair
                obtain ⟨h1, h2⟩ := hpair
                subst h1
                subst h2
                exact ⟨rfl, rfl, rfl⟩
              | failed msg => simp [convert, hfb, hbs, hsl, hids, hcv, hvid, hout] at h
              | pending => simp [convert, hfb, hbs, hsl, hids, hcv, hvid, hout] at h

lemma generateSpeakerNotes_length (llm : String → Option String) (ts : List String) :
    (generateSpeakerNotes llm ts).1.length = ts.length :=
  notesAux_length llm ts 1

lemma pptxToHeygenImages_length_le (env : RasterEnv) (n : Nat) :
    (pptxToHeygenImages env n []).length ≤ n := by
  rw [pptxToHeygenImages_eq]
  simpa using le_trans (List.length_filterMap_le _ _) (by simp)

lemma filterMap_length_of_all_some (f : Nat → Option String) (hf : ∀ a, f a ≠ none) :
    ∀ l : List Nat, (l.filterMap f).length = l.length
  | [] => rfl
  | a :: l => by
    cases hfa : f a with
    | none => exact absurd hfa (hf a)
    | some b => simp [List.filterMap_cons, hfa, filterMap_length_of_all_some f hf l]

/-- Deterministic environment with a five-slide deck whose slide 3 fails to
render; everything else succeeds. -/
def env2 : ConvertEnv where
  fetchBytes := fun _ => some [7]
  parseTexts := fun _ => ["t1", "t2", "t3", "t4", "t5"]
  raster := { render := fun i => if i = 3 then none else some [i],
              uploadId := fun i _ => some ("a" ++ toString i) }
  llm := fun _ => some "note"
  cfg := cfgEx
  createVideoId := fun _ _ => some "vid"
  statuses := fun _ => { status := "completed", videoUrl := "http://v", errorMsg := none }

/-- Deterministic environment with a two-slide deck where every slide
succeeds. -/
def envAll : ConvertEnv where
  fetchBytes := fun _ => some [7]
  parseTexts := fun _ => ["t1", "t2"]
  raster := { render := fun _ => some [9], uploadId := fun _ _ => some "b" }
  llm := fun _ => some "note"
  cfg := cfgEx
  createVideoId := fun _ _ => some "vid"
  statuses := fun _ => { status := "completed", videoUrl := "http://v", errorMsg := none }

/-- C2 (amended): on an invocation whose `slide_asset_ids` accumulator starts
empty — in particular the first `convert` call of a pipeline object — the
narration count equals the asset count when the job is built: the returned
`slides_processed` (the narration count) equals the length of the accumulated
asset list.  (On a reused object with leftover assets the source only
guarantees `len(speaker_notes) = min(len(slide_texts), len(slide_asset_ids))`;
see the counterexample.) -/
theorem notes_match_assets_on_fresh_accumulator (env : ConvertEnv) (pollFuel : Nat)
    (pid : String) (videoTitle : Option String) (maxSlides : Option Nat)
    (r : ConversionResult) (s : List String)
    (h : convert env pollFuel pid videoTitle maxSlides [] = .ok (r, s)) :
    r.slidesProcessed = s.length := by
  obtain ⟨bs, hfb, hbs, hsl, hs, hsp, ht⟩ := convert_ok_inv _ _ _ _ _ _ _ _ h
  have hk : s.length ≤ (applyMaxSlides maxSlides (env.parseTexts bs)).length := by
    rw [hs]
    exact pptxToHeygenImages_length_le _ _
  rw [hsp, generateSpeakerNotes_length, List.length_take]
  omega

/-- Witness for C2: the first call of the five-slide environment (slide 3
failing) returns `slides_processed = 4` and an accumulator of length 4. -/
theorem notes_match_assets_witness :
    ConversionResult.slidesProcessed
        { videoId := "vid", videoUrl := "http://v", slidesProcessed := 4,
          title := "PPTX转换视频_deck" }
      = (["a1", "a2", "a4", "a5"] : List String).length :=
  notes_match_assets_on_fresh_accumulator env2 1 "deck" none none _ _ rfl

/-- Counterexample to C2 as stated for every invocation: after a first call in
which slide 3 failed, the second call of the same pipeline object builds the
job with 5 narrations (`slides_processed = 5`) while the accumulated
`slide_asset_ids` has length 8 — the narration count no longer equals the
asset count. -/
theorem notes_exceed_assets_on_reuse :
    convert env2 1 "deck" none none []
      = .ok ({ videoId := "vid", videoUrl := "http://v", slidesProcessed := 4,
               title := "PPTX转换视频_deck" }, ["a1", "a2", "a4", "a5"])
    ∧ convert env2 1 "deck" none none ["a1", "a2", "a4", "a5"]
      = .ok ({ videoId := "vid", videoUrl := "http://v", slidesProcessed := 5,
               title := "PPTX转换视频_deck" },
             ["a1", "a2", "a4", "a5", "a1", "a2", "a4", "a5"])
    ∧ (5 : Nat) ≠ (["a1", "a2", "a4", "a5", "a1", "a2", "a4", "a5"] : List String).length := by
  refine ⟨rfl, rfl, by decide⟩

/-- C9 (amended): two successive `convert` calls on the same pipeline object
with identical inputs against the same deterministic environment return
results with identical `slides_processed` and `title`, provided every slide
rasterizes and uploads successfully.  (With a per-slide failure, the
accumulator left by the first call changes the second call's
`slides_processed`; see the counterexample.) -/
theorem convert_repeat_same_counts (env : ConvertEnv) (pollFuel : Nat) (pid : String)
    (videoTitle : Option String) (maxSlides : Option Nat)
    (r1 : ConversionResult) (s1 : List String) (r2 : ConversionResult) (s2 : List String)
    (hsucc : ∀ i, processSlide env.raster i ≠ none)
    (h1 : convert env pollFuel pid videoTitle maxSlides [] = .ok (r1, s1))
    (h2 : convert env pollFuel pid videoTitle maxSlides s1 = .ok (r2, s2)) :
    r1.slidesProcessed = r2.slidesProcessed ∧ r1.title = r2.title := by
  obtain ⟨bs1, hfb1, hbs1, hsl1, hs1, hsp1, ht1⟩ := convert_ok_inv _ _ _ _ _ _ _ _ h1
  obtain ⟨bs2, hfb2, hbs2, hsl2, hs2, hsp2, ht2⟩ := convert_ok_inv _ _ _ _ _ _ _ _ h2
  have hbs12 : bs2 = bs1 := by
    rw [hfb1] at hfb2
    exact (Option.some.inj hfb2).symm
  subst hbs12
  have hall : ∀ l : List Nat, (l.filterMap (processSlide env.raster)).length = l.length :=
    filterMap_length_of_all_some _ hsucc
  have hlen1 : s1.length = (applyMaxSlides maxSlides (env.parseTexts bs2)).length := by
    rw [hs1, pptxToHeygenImages_eq]
    simp [hall]
  have hlen2 : s2.length
      = (applyMaxSlides maxSlides (env.parseTexts bs2)).length
        + (applyMaxSlides maxSlides (env.parseTexts bs2)).length := by
    rw [hs2, pptxToHeygenImages_eq]
    simp [hall, hlen1]
  refine ⟨?_, by rw [ht1, ht2]⟩
  rw [hsp1, hsp2, generateSpeakerNotes_length, generateSpeakerNotes_length,
    List.length_take, List.length_take, hlen1, hlen2]
  omega

/-- Witness for C9: with the all-slides-succeed two-slide environment, both
calls return `slides_processed = 2` and the same title. -/
theorem convert_repeat_same_counts_witness :
    ConversionResult.slidesProcessed
        { videoId := "vid", videoUrl := "http://v", slidesProcessed := 2,
          title := "PPTX转换视频_deck" }
      = ConversionResult.slidesProcessed
          { videoId := "vid", videoUrl := "http://v", slidesProcessed := 2,
            title := "PPTX转换视频_deck" }
    ∧ ConversionResult.title
        { videoId := "vid", videoUrl := "http://v", slidesProcessed := 2,
          title := "PPTX转换视频_deck" }
      = ConversionResult.title
          { videoId := "vid", videoUrl := "http://v", slidesProcessed := 2,
            title := "PPTX转换视频_deck" } :=
  convert_repeat_same_counts envAll 1 "deck" none none _ _ _ _
    (fun i => by simp [processSlide, envAll]) rfl rfl

/-- Counterexample to C9 as stated: against the deterministic five-slide
environment whose slide 3 always fails, the first call returns
`slides_processed = 4` but the second call on the same pipeline object
returns `slides_processed = 5`, because the accumulator retained the first
call's four assets. -/
theorem convert_repeat_differs_on_slide_failure :
    convert env2 1 "deck" none none []
      = .ok ({ videoId := "vid", videoUrl := "http://v", slidesProcessed := 4,
               title := "PPTX转换视频_deck" }, ["a1", "a2", "a4", "a5"])
    ∧ convert env2 1 "deck" none none ["a1", "a2", "a4", "a5"]
      = .ok ({ videoId := "vid", videoUrl := "http://v", slidesProcessed := 5,
               title := "PPTX转换视频_deck" },
             ["a1", "a2", "a4", "a5", "a1", "a2", "a4", "a5"])
    ∧ (4 : Nat) ≠ (5 : Nat) :=
  ⟨rfl, rfl, by decide⟩

/-- Environment whose deck fetch yields nothing. -/
def envFetchFail : ConvertEnv where
  fetchBytes := fun _ => none
  parseTexts := fun _ => []
  raster := { render := fun _ => none, uploadId := fun _ _ => none }
  llm := fun _ => none
  cfg := cfgEx
  createVideoId := fun _ _ => none
  statuses := fun _ => { status := "processing", videoUrl := "", errorMsg := none }

/-- Environment whose fetched deck parses to zero slides. -/
def envEmptyDeck : ConvertEnv where
  fetchBytes := fun _ => some [7]
  parseTexts := fun _ => []
  raster := { render := fun _ => none, uploadId := fun _ _ => none }
  llm := fun _ => none
  cfg := cfgEx
  createVideoId := fun _ _ => none
  statuses := fun _ => { status := "processing", videoUrl := "", errorMsg := none }

/-- Environment with a two-slide deck where every slide fails to render; the
video endpoints would succeed if reached. -/
def envNoAssets : ConvertEnv where
  fetchBytes := fun _ => some [7]
  parseTexts := fun _ => ["t1", "t2"]
  raster := { render := fun _ => none, uploadId := fun _ _ => none }
  llm := fun _ => none
  cfg := cfgEx
  createVideoId := fun _ _ => some "vid"
  statuses := fun _ => { status := "completed", videoUrl := "http://v", errorMsg := none }

/-- C8 (amended): on an invocation whose `slide_asset_ids` accumulator starts
empty — in particular the first `convert` call of a pipeline object — the
structural failures are fatal with their specific reason and, the result
being an exception, no ConversionResult is returned: a deck fetch yielding no
bytes raises deck-not-found, a parsed deck with zero slides raises empty-deck,
and rasterization producing zero SlideAssets raises no-slides-converted.  (The
source checks the accumulated list, so on a reused object stale assets mask
the no-slides-converted error; see the counterexample.) -/
theorem structural_failures_fresh (env : ConvertEnv) (pollFuel : Nat) (pid : String)
    (videoTitle : Option String) (maxSlides : Option Nat) (st : List String) :
    ((env.fetchBytes pid = none ∨ env.fetchBytes pid = some []) →
      convert env pollFuel pid videoTitle maxSlides st
        = .error (ConvError.deckNotFound pid))
    ∧ (∀ bs, env.fetchBytes pid = some bs → bs ≠ [] → env.parseTexts bs = [] →
      convert env pollFuel pid videoTitle maxSlides st = .error ConvError.emptyDeck)
    ∧ (∀ bs, env.fetchBytes pid = some bs → bs ≠ [] → env.parseTexts bs ≠ [] →
      pptxToHeygenImages env.raster (applyMaxSlides maxSlides (env.parseTexts bs)).length [] = [] →
      convert env pollFuel pid videoTitle maxSlides []
        = .error ConvError.noSlidesConverted) := by
  refine ⟨fun hfb => ?_, fun bs hfb hbs hsl => ?_, fun bs hfb hbs hsl hids => ?_⟩
  · rcases hfb with hfb | hfb <;> simp [convert, hfb]
  · simp [convert, hfb, hbs, hsl]
  · simp [convert, hfb, hbs, hsl, hids]

/-- Witness for C8 at three concrete environments: a failing fetch raises
deck-not-found, a zero-slide parse raises empty-deck, and all slides failing
to rasterize raises no-slides-converted. -/
theorem structural_failures_fresh_witness :
    convert envFetchFail 1 "deck" none none [] = .error (ConvError.deckNotFound "deck")
    ∧ convert envEmptyDeck 1 "deck" none none [] = .error ConvError.emptyDeck
    ∧ convert envNoAssets 1 "deck" none none [] = .error ConvError.noSlidesConverted :=
  ⟨(structural_failures_fresh envFetchFail 1 "deck" none none []).1 (Or.inl rfl),
   (structural_failures_fresh envEmptyDeck 1 "deck" none none []).2.1 [7] rfl (by decide) rfl,
   (structural_failures_fresh envNoAssets 1 "deck" none none []).2.2 [7] rfl (by decide)
     (by decide) rfl⟩

/-- Counterexample to C8 as stated for every invocation: on a reused pipeline
object holding one stale asset, an invocation in which rasterization produces
zero SlideAssets (both slides fail to render) does not raise
no-slides-converted — it completes and returns a ConversionResult built from
the stale asset. -/
theorem stale_assets_mask_no_slides_error :
    processSlide envNoAssets.raster 1 = none
    ∧ processSlide envNoAssets.raster 2 = none
    ∧ convert envNoAssets 1 "deck" none none ["a0"]
      = .ok ({ videoId := "vid", videoUrl := "http://v", slidesProcessed := 1,
               title := "PPTX转换视频_deck" }, ["a0"]) :=
  ⟨rfl, rfl, rfl⟩

/-- C10: `max_slides = 0` is falsy in the source's truthiness test, so it
applies no truncation: the truncation step leaves the slide list untouched,
and `convert` with `max_slides = 0` behaves exactly like `convert` with no
limit (processing all slides, not zero, and not raising). -/
theorem max_slides_zero_no_truncation (env : ConvertEnv) (pollFuel : Nat) (pid : String)
    (videoTitle : Option String) (st : List String) (slides : List String) :
    applyMaxSlides (some 0) slides = slides
    ∧ convert env pollFuel pid videoTitle (some 0) st
      = convert env pollFuel pid videoTitle none st := by
  have h : applyMaxSlides (some 0) = applyMaxSlides none := funext fun s => rfl
  exact ⟨rfl, by simp only [convert, h]⟩
